import Mathlib

/-!
Verification of the AgriVision IoT ingestion server (server.js) against its
natural-language specification.

The single endpoint `POST /api/store-reading` is shallowly embedded below:
JSON scalar values are modeled by `JsValue`, JavaScript numbers by `JSNum`
(NaN / +Infinity / -Infinity / a finite value, the finite values carried as
exact rationals since no claim depends on IEEE-754 rounding), and the handler
body by the pure function `storeReading`, which returns the HTTP response
together with the file-write and database-insert effects it performs.
Composite JSON values (arrays, objects) are not modeled; every claim is about
scalar payload fields.  Filesystem operations and the database insert are
modeled as succeeding, since no claim concerns their failure.
-/

namespace AgriVision

/-- A JavaScript number: NaN, the two infinities, or a finite value.  Finite
values are carried as exact rationals; no claim depends on IEEE-754 rounding. -/
inductive JSNum where
  | nan
  | inf
  | negInf
  | finite (q : ℚ)
  deriving DecidableEq, Repr

/-- `Number.isNaN` (line 89 of server.js uses exactly this, not a finiteness
check). -/
def JSNum.isNaN : JSNum → Bool
  | .nan => true
  | _ => false

/-- Finiteness of a JavaScript number (`Number.isFinite`); the server never
calls this, it is used only to state claims about non-finite values. -/
def JSNum.isFinite : JSNum → Bool
  | .finite _ => true
  | _ => false

/-- A JSON scalar value as delivered by `express.json()`. -/
inductive JsValue where
  | vNull
  | vBool (b : Bool)
  | vNum (n : JSNum)
  | vStr (s : String)
  deriving DecidableEq, Repr

/-- Loose equality with null: `v == null` holds exactly for `undefined`
(an absent field, modeled as `none`) and `null`. -/
def jsIsNullish : Option JsValue → Bool
  | none => true
  | some .vNull => true
  | some _ => false

/-! ## String.prototype.trim and Number(string) -/

/-- Whitespace stripped by `String.prototype.trim` and by `Number(string)`:
ASCII whitespace plus NBSP and the BOM.  (The full JS set also contains further
Unicode space characters and the U+2028/U+2029 line separators; no claim
exercises those.) -/
def jsWhitespace (c : Char) : Bool :=
  c = ' ' || c = '\t' || c = '\n' || c = '\r' || c = '\x0b' || c = '\x0c' ||
  c = '\u00a0' || c = '\ufeff'

/-- Model of `String.prototype.trim`. -/
def jsTrim (s : String) : String :=
  String.mk (((s.toList.dropWhile jsWhitespace).reverse.dropWhile jsWhitespace).reverse)

def isDigitCh (c : Char) : Bool := '0' ≤ c && c ≤ '9'

def digitVal (c : Char) : ℕ := c.toNat - '0'.toNat

/-- Value of a decimal digit string (most significant digit first). -/
def natOfDigits (cs : List Char) : ℕ := cs.foldl (fun a c => 10 * a + digitVal c) 0

/-- Value of a fractional digit string: `fracOfDigits "25" = 25/100`. -/
def fracOfDigits (cs : List Char) : ℚ := (natOfDigits cs : ℚ) / (10 : ℚ) ^ cs.length

def isHexDigitCh (c : Char) : Bool :=
  isDigitCh c || ('a' ≤ c && c ≤ 'f') || ('A' ≤ c && c ≤ 'F')

def hexVal (c : Char) : ℕ :=
  if isDigitCh c then digitVal c
  else if 'a' ≤ c && c ≤ 'f' then c.toNat - 'a'.toNat + 10
  else c.toNat - 'A'.toNat + 10

def natOfHexDigits (cs : List Char) : ℕ := cs.foldl (fun a c => 16 * a + hexVal c) 0

def isOctDigitCh (c : Char) : Bool := '0' ≤ c && c ≤ '7'

def natOfOctDigits (cs : List Char) : ℕ := cs.foldl (fun a c => 8 * a + digitVal c) 0

def isBinDigitCh (c : Char) : Bool := c = '0' || c = '1'

def natOfBinDigits (cs : List Char) : ℕ := cs.foldl (fun a c => 2 * a + digitVal c) 0

/-- Exponent digits: nonempty, all decimal digits, consuming the whole input. -/
def parseExpDigits (cs : List Char) : Option ℤ :=
  if cs.isEmpty then none
  else if cs.all isDigitCh then some ((natOfDigits cs : ℕ) : ℤ) else none

/-- Optionally signed exponent after `e`/`E`. -/
def parseSignedExp : List Char → Option ℤ
  | '+' :: rest => parseExpDigits rest
  | '-' :: rest => (parseExpDigits rest).map Neg.neg
  | cs => parseExpDigits cs

/-- An unsigned ECMAScript decimal literal: `digits [. digits] [exp]` or
`. digits [exp]`, consuming the whole input. -/
def parseDecLit (cs : List Char) : Option ℚ :=
  let p1 := cs.span isDigitCh
  let p2 : List Char × List Char :=
    match p1.2 with
    | '.' :: rest => rest.span isDigitCh
    | _ => ([], p1.2)
  if p1.1.isEmpty && p2.1.isEmpty then none
  else
    let mant : ℚ := (natOfDigits p1.1 : ℚ) + fracOfDigits p2.1
    match p2.2 with
    | [] => some mant
    | 'e' :: rest => (parseSignedExp rest).map (fun e => mant * (10 : ℚ) ^ e)
    | 'E' :: rest => (parseSignedExp rest).map (fun e => mant * (10 : ℚ) ^ e)
    | _ => none

/-- An unsigned decimal literal or the literal `Infinity`. -/
def decOrInf (cs : List Char) : Option JSNum :=
  if cs = "Infinity".toList then some .inf
  else (parseDecLit cs).map .finite

/-- Nondecimal integer literals `0x… / 0o… / 0b…` (sign not permitted). -/
def hexNum (cs : List Char) : JSNum :=
  if !cs.isEmpty && cs.all isHexDigitCh then .finite ((natOfHexDigits cs : ℕ) : ℚ) else .nan

def octNum (cs : List Char) : JSNum :=
  if !cs.isEmpty && cs.all isOctDigitCh then .finite ((natOfOctDigits cs : ℕ) : ℚ) else .nan

def binNum (cs : List Char) : JSNum :=
  if !cs.isEmpty && cs.all isBinDigitCh then .finite ((natOfBinDigits cs : ℕ) : ℚ) else .nan

/-- A trimmed, nonempty numeric string body (ECMAScript StrNumericLiteral). -/
def strToNumCore (cs : List Char) : JSNum :=
  match cs with
  | '+' :: rest =>
      match decOrInf rest with
      | some n => n
      | none => .nan
  | '-' :: rest =>
      match decOrInf rest with
      | some (.finite q) => .finite (-q)
      | some .inf => .negInf
      | _ => .nan
  | '0' :: 'x' :: rest => hexNum rest
  | '0' :: 'X' :: rest => hexNum rest
  | '0' :: 'o' :: rest => octNum rest
  | '0' :: 'O' :: rest => octNum rest
  | '0' :: 'b' :: rest => binNum rest
  | '0' :: 'B' :: rest => binNum rest
  | _ =>
      match decOrInf cs with
      | some n => n
      | none => .nan

/-- Model of the ECMAScript StringToNumber coercion: trim, the empty string is
0, otherwise a (possibly signed) decimal literal, `Infinity`, or a nondecimal
integer literal; anything else is NaN. -/
def strToNum (s : String) : JSNum :=
  let t := (jsTrim s).toList
  if t.isEmpty then .finite 0 else strToNumCore t

/-- Model of `Number(v)` on JSON scalar values. -/
def jsToNumber : JsValue → JSNum
  | .vNull => .finite 0
  | .vBool b => .finite (if b then 1 else 0)
  | .vNum n => n
  | .vStr s => strToNum s

/-- Model of `Number(x)` where `x` may also be `undefined` (absent):
`Number(undefined)` is NaN. -/
def jsToNumberOpt : Option JsValue → JSNum
  | none => .nan
  | some v => jsToNumber v

/-! ## sanitizeCollectionName (server.js lines 25-31) -/

/-- The character class of the allow-list regex `[A-Za-z0-9_-]`. -/
def isAllowedChar (c : Char) : Bool :=
  ('A' ≤ c && c ≤ 'Z') || ('a' ≤ c && c ≤ 'z') || ('0' ≤ c && c ≤ '9') ||
  c = '_' || c = '-'

/-- The test of the regex `^[A-Za-z0-9_-]\x7b1,100\x7d$`.  (The JS quantifier
counts UTF-16 code units while `String.length` here counts code points, but any
string containing a non-ASCII character already fails the character class, so
the outcomes agree.) -/
def fieldIdTest (s : String) : Bool :=
  1 ≤ s.length && s.length ≤ 100 && s.toList.all isAllowedChar

/-- sanitizeCollectionName from server.js: null unless the argument is a string
whose trimmed form passes the allow-list regex, in which case the trimmed form
is returned.  `typeof name !== "string"` covers `undefined` (an absent field),
`null`, numbers and booleans. -/
def sanitizeCollectionName (name : Option JsValue) : Option String :=
  match name with
  | some (.vStr s) =>
      let trimmed := jsTrim s
      if fieldIdTest trimmed then some trimmed else none
  | _ => none

/-! ## decodeBase64Image (server.js lines 34-48) -/

/-- Sextet value of a base64 alphabet character.  Node's buffer decoder also
accepts the URL-safe alphabet (`-` for 62, `_` for 63). -/
def b64Val (c : Char) : Option ℕ :=
  if 'A' ≤ c && c ≤ 'Z' then some (c.toNat - 'A'.toNat)
  else if 'a' ≤ c && c ≤ 'z' then some (c.toNat - 'a'.toNat + 26)
  else if isDigitCh c then some (c.toNat - '0'.toNat + 52)
  else if c = '+' || c = '-' then some 62
  else if c = '/' || c = '_' then some 63
  else none

/-- The sextets of the valid base64 characters before the first padding
character.  Node's lenient decoder skips characters outside the alphabet and
stops at `=`; it never throws on a string. -/
def b64Sextets : List Char → List ℕ
  | [] => []
  | c :: rest =>
      if c = '=' then []
      else
        match b64Val c with
        | some v => v :: b64Sextets rest
        | none => b64Sextets rest

/-- Pack a sextet stream into bytes (big-endian bit stream; trailing bits that
do not fill a byte are dropped). -/
def sextetsToBytes : List ℕ → List ℕ
  | a :: b :: c :: d :: rest =>
      (a * 4 + b / 16) :: ((b % 16) * 16 + c / 4) :: ((c % 4) * 64 + d) ::
        sextetsToBytes rest
  | [a, b, c] => [a * 4 + b / 16, (b % 16) * 16 + c / 4]
  | [a, b] => [a * 4 + b / 16]
  | _ => []

/-- Model of `Buffer.from(s, "base64")`: a lenient decode that always yields a
buffer (a byte list) for any string. -/
def nodeBase64Decode (s : String) : List ℕ := sextetsToBytes (b64Sextets s.toList)

/-- ECMAScript line terminators, which `.` does not match. -/
def isLineTerm (c : Char) : Bool :=
  c = '\n' || c = '\r' || c = '\u2028' || c = '\u2029'

/-- The character class `[A-Za-z-+/]` of the data-URI regex at line 38 of
server.js.  Note that it contains no digits. -/
def isMimeChar (c : Char) : Bool :=
  ('A' ≤ c && c ≤ 'Z') || ('a' ≤ c && c ≤ 'z') || c = '-' || c = '+' || c = '/'

/-- The regex step of decodeBase64Image: match
`^data:([A-Za-z-+/]+);base64,(.+)$` and keep group 2 on success, the whole
string otherwise.  Since `;` is outside the mime character class, group 1 is
exactly the maximal run of class characters after `data:`; `(.+)$` requires a
nonempty remainder with no line terminator. -/
def stripDataUri (s : String) : String :=
  match s.toList with
  | 'd' :: 'a' :: 't' :: 'a' :: ':' :: rest =>
      let p := rest.span isMimeChar
      if p.1.isEmpty then s
      else
        match p.2 with
        | ';' :: 'b' :: 'a' :: 's' :: 'e' :: '6' :: '4' :: ',' :: payload =>
            if !payload.isEmpty && payload.all (fun c => !isLineTerm c) then
              String.mk payload
            else s
        | _ => s
  | _ => s

/-- decodeBase64Image from server.js.  For a string argument,
`Buffer.from(str, "base64")` never throws, so a buffer is always produced.
For any non-string argument, `dataString.match(...)` throws a TypeError, which
the surrounding catch converts into a null buffer. -/
def decodeBase64Image (dataString : JsValue) : Option (List ℕ) :=
  match dataString with
  | .vStr s => some (nodeBase64Decode (stripDataUri s))
  | _ => none

/-! ## Decimal rendering of the timestamp -/

def digitChar : ℕ → Char
  | 0 => '0' | 1 => '1' | 2 => '2' | 3 => '3' | 4 => '4'
  | 5 => '5' | 6 => '6' | 7 => '7' | 8 => '8' | _ => '9'

/-- Decimal digits of a natural number, fuel-indexed so that the definition
reduces by structural recursion; `natDec` supplies sufficient fuel. -/
def natDecAux : ℕ → ℕ → List Char
  | 0, _ => []
  | fuel + 1, n =>
      if n < 10 then [digitChar n]
      else natDecAux fuel (n / 10) ++ [digitChar (n % 10)]

/-- Base-10 rendering of a natural number, as produced by the template literal
interpolation of a timestamp. -/
def natDec (n : ℕ) : String := String.mk (natDecAux (n + 1) n)

/-! ## The request handler (server.js lines 51-153) -/

/-- The fields destructured from `req.body`; an absent field is `none`
(`undefined`). -/
structure Request where
  field_id : Option JsValue
  soil_moisture : Option JsValue
  temperature : Option JsValue
  humidity : Option JsValue
  image_base64 : Option JsValue
  database_name : Option JsValue
  deriving DecidableEq, Repr

/-- Process-level configuration: `DATABASE_NAME` (env or the default
"AgriVision_IoT") and `__dirname`, the directory containing server.js. -/
structure Config where
  databaseName : String
  dirname : String
  deriving DecidableEq, Repr

/-- The four validation failures of the specification's error taxonomy. -/
inductive ErrKind where
  | invalidFieldId
  | missingImage
  | missingSensorValue
  | nonNumericSensorValue
  deriving DecidableEq, Repr

/-- The document built at lines 121-129 of server.js. -/
structure ReadingDoc where
  field_id : String
  soil_moisture : JSNum
  temperature : JSNum
  humidity : JSNum
  image_base64 : JsValue
  saved_file : Option String
  created_at : ℕ
  deriving DecidableEq, Repr

/-- The JSON response of the handler (the 500 branch is unreachable in this
model because the insert is modeled as succeeding). -/
inductive Response where
  | badRequest (kind : ErrKind) (errorMsg : String)
  | ok (collection : String) (saved_file : Option String)
  deriving DecidableEq, Repr

def Response.statusCode : Response → ℕ
  | .badRequest _ _ => 400
  | .ok _ _ => 200

/-- The response together with the effects the handler performed: the file
written under uploads (path and bytes), and the document insert
(database, collection, document). -/
structure StoreResult where
  response : Response
  fileWritten : Option (String × List ℕ)
  insertedInto : Option (String × String × ReadingDoc)
  deriving DecidableEq, Repr

def StoreResult.errKind (r : StoreResult) : Option ErrKind :=
  match r.response with
  | .badRequest k _ => some k
  | .ok _ _ => none

def invalidFieldIdMsg : String :=
  "Invalid field_id. Use only letters, numbers, - and _ (max 100 chars)."

def missingImageMsg : String := "image_base64 is required"

def missingSensorMsg : String := "soil_moisture, temperature and humidity are required"

def nonNumericMsg : String := "Sensor values must be numeric"

/-- An early 400 return: no file written, no document inserted. -/
def badResult (k : ErrKind) (msg : String) : StoreResult :=
  { response := .badRequest k msg, fileWritten := none, insertedInto := none }

/-- The path `path.join(__dirname, "uploads", collectionName_timestamp.jpg)`
(lines 102-110); `__dirname` is an absolute path without trailing slash, so the
join is plain concatenation with `/`. -/
def uploadPath (cfg : Config) (collectionName : String) (ts : ℕ) : String :=
  cfg.dirname ++ "/uploads/" ++ collectionName ++ "_" ++ natDec ts ++ ".jpg"

/-- The value of `savedFilename` (lines 99-112): the upload path exactly when
a buffer was decoded (the filename is assigned before the write), null
otherwise. -/
def savedFileOf (cfg : Config) (tsNow : ℕ) (req : Request) (cn : String) :
    Option String :=
  match decodeBase64Image (req.image_base64.getD .vNull) with
  | some _ => some (uploadPath cfg cn tsNow)
  | none => none

/-- The document built at lines 121-129: the sanitized name, the three coerced
numbers, the raw image value verbatim, the saved path (or null), and the
insert-time date. -/
def docOf (cfg : Config) (tsNow tsDoc : ℕ) (req : Request) (cn : String) :
    ReadingDoc :=
  { field_id := cn
    soil_moisture := jsToNumberOpt req.soil_moisture
    temperature := jsToNumberOpt req.temperature
    humidity := jsToNumberOpt req.humidity
    image_base64 := req.image_base64.getD .vNull
    saved_file := savedFileOf cfg tsNow req cn
    created_at := tsDoc }

/-- The tail of the handler after all validation passed (lines 96-146):
decode, best-effort file write, document construction and insert.  `tsNow`
models `Date.now()` at line 106 and `tsDoc` the `new Date()` at line 128;
filesystem operations and `insertOne` are modeled as succeeding. -/
def successResult (cfg : Config) (tsNow tsDoc : ℕ) (req : Request)
    (collectionName : String) : StoreResult :=
  { response := .ok collectionName (savedFileOf cfg tsNow req collectionName)
    fileWritten :=
      match decodeBase64Image (req.image_base64.getD .vNull) with
      | some b => some (uploadPath cfg collectionName tsNow, b)
      | none => none
    insertedInto :=
      some (cfg.databaseName, collectionName,
        docOf cfg tsNow tsDoc req collectionName) }

/-- The handler of `POST /api/store-reading` (server.js lines 51-153),
translated check by check.  `if (!collectionName)` is falsy both for `null`
and for the empty string, hence the extra emptiness test. -/
def storeReading (cfg : Config) (tsNow tsDoc : ℕ) (req : Request) : StoreResult :=
  match sanitizeCollectionName req.field_id with
  | none => badResult .invalidFieldId invalidFieldIdMsg
  | some collectionName =>
      if collectionName = "" then badResult .invalidFieldId invalidFieldIdMsg
      else if jsIsNullish req.image_base64 then badResult .missingImage missingImageMsg
      else if [req.soil_moisture, req.temperature, req.humidity].any jsIsNullish then
        badResult .missingSensorValue missingSensorMsg
      else if [jsToNumberOpt req.soil_moisture, jsToNumberOpt req.temperature,
               jsToNumberOpt req.humidity].any JSNum.isNaN then
        badResult .nonNumericSensorValue nonNumericMsg
      else successResult cfg tsNow tsDoc req collectionName

/-- Validation step 1 as a predicate: the request survives the field_id check. -/
def fieldIdAccepted (req : Request) : Bool :=
  match sanitizeCollectionName req.field_id with
  | some s => !(s = "")
  | none => false

/-! ## Concrete fixtures used by witnesses and counterexamples -/

/-- A deployment configuration: the default database name and a script
directory. -/
def cfg0 : Config := { databaseName := "AgriVision_IoT", dirname := "/srv/app" }

/-- The successful request of the specification scenario. -/
def reqGood : Request :=
  { field_id := some (.vStr "Field_01")
    soil_moisture := some (.vStr "42.5")
    temperature := some (.vNum (.finite 21))
    humidity := some (.vNum (.finite 60))
    image_base64 := some (.vStr "QQ==")
    database_name := none }

/-- A request whose field_id has a space and an exclamation mark (the spec's
"bad id!" scenario). -/
def reqBadField : Request := { reqGood with field_id := some (.vStr "bad id!") }

/-- A request whose soil_moisture coerces to positive Infinity. -/
def reqInf : Request := { reqGood with soil_moisture := some (.vStr "Infinity") }

/-- A request whose soil_moisture coerces to NaN. -/
def reqNaN : Request := { reqGood with soil_moisture := some (.vStr "abc") }

/-- A request whose image payload is a string with no valid base64 character. -/
def reqBad64 : Request := { reqGood with image_base64 := some (.vStr "!!!") }

/-- A request whose image payload is a JSON number, on which
`dataString.match` throws and the decoder yields no buffer. -/
def reqNumImage : Request := { reqGood with image_base64 := some (.vNum (.finite 5)) }

/-- Drop an expected literal prefix, or fail. -/
def dropLit : List Char → List Char → Option (List Char)
  | [], cs => some cs
  | _ :: _, [] => none
  | l :: ls, c :: cs => if c = l then dropLit ls cs else none

/-- Zero or more digits followed by exactly ".jpg". -/
def digitsDotJpg : List Char → Bool
  | c :: rest =>
      if isDigitCh c then digitsDotJpg rest else c :: rest = ['.', 'j', 'p', 'g']
  | [] => false

/-- Modelled from the spec's words: a full match of the scenario pattern
`uploads/Field_01_<digits>.jpg` (a nonempty digit run). -/
def specSavedFilePatChars (cs : List Char) : Bool :=
  match dropLit "uploads/Field_01_".toList cs with
  | some (c :: rest) => isDigitCh c && digitsDotJpg rest
  | _ => false

/-- Modelled from the spec's words: whether a string matches
`uploads/Field_01_<digits>.jpg`. -/
def specSavedFilePattern (s : String) : Bool := specSavedFilePatChars s.toList

/-! ## Lemmas about the validation pipeline -/

lemma fieldIdTest_ne_empty {s : String} (h : fieldIdTest s = true) : s ≠ "" := by
  intro he
  rw [he] at h
  exact absurd h (by decide)

lemma sanitize_eq_some_iff {v : Option JsValue} {cn : String} :
    sanitizeCollectionName v = some cn ↔
      ∃ s, v = some (.vStr s) ∧ jsTrim s = cn ∧ fieldIdTest cn = true := by
  cases v with
  | none => simp [sanitizeCollectionName]
  | some w =>
    cases w with
    | vNull => simp [sanitizeCollectionName]
    | vBool b => simp [sanitizeCollectionName]
    | vNum n => simp [sanitizeCollectionName]
    | vStr s =>
      simp only [sanitizeCollectionName, Option.some.injEq, JsValue.vStr.injEq]
      constructor
      · intro h
        by_cases ht : fieldIdTest (jsTrim s) = true
        · rw [if_pos ht] at h
          refine ⟨s, rfl, Option.some.inj h, ?_⟩
          rw [← Option.some.inj h]
          exact ht
        · rw [if_neg ht] at h
          cases h
      · rintro ⟨s', hs', htrim, htest⟩
        obtain rfl : s = s' := hs'
        rw [htrim, if_pos (htrim ▸ htest)]

lemma sanitize_eq_none_iff {v : Option JsValue} :
    sanitizeCollectionName v = none ↔
      ¬ ∃ s, v = some (.vStr s) ∧ fieldIdTest (jsTrim s) = true := by
  cases v with
  | none => simp [sanitizeCollectionName]
  | some w =>
    cases w with
    | vNull => simp [sanitizeCollectionName]
    | vBool b => simp [sanitizeCollectionName]
    | vNum n => simp [sanitizeCollectionName]
    | vStr s =>
      by_cases ht : fieldIdTest (jsTrim s) = true
      · simp [sanitizeCollectionName, ht]
      · simp [sanitizeCollectionName, ht]

/-- The sanitizer never returns the empty string, so the falsy test at line 64
collapses to the null test. -/
lemma sanitize_some_ne_empty {v : Option JsValue} {cn : String}
    (h : sanitizeCollectionName v = some cn) : cn ≠ "" := by
  obtain ⟨s, _, _, htest⟩ := sanitize_eq_some_iff.mp h
  exact fieldIdTest_ne_empty htest

lemma fieldIdAccepted_of_some {req : Request} {cn : String}
    (h : sanitizeCollectionName req.field_id = some cn) :
    fieldIdAccepted req = true := by
  simp [fieldIdAccepted, h, sanitize_some_ne_empty h]

lemma fieldIdAccepted_of_none {req : Request}
    (h : sanitizeCollectionName req.field_id = none) :
    fieldIdAccepted req = false := by
  simp [fieldIdAccepted, h]

/-- Case analysis on the handler: exactly one of the five pipeline outcomes
happens, and the result is determined by the first failing check. -/
lemma storeReading_shape (cfg : Config) (t1 t2 : ℕ) (req : Request) :
    (sanitizeCollectionName req.field_id = none ∧
      storeReading cfg t1 t2 req = badResult .invalidFieldId invalidFieldIdMsg) ∨
    (∃ cn, sanitizeCollectionName req.field_id = some cn ∧ cn ≠ "" ∧
      ((jsIsNullish req.image_base64 = true ∧
          storeReading cfg t1 t2 req = badResult .missingImage missingImageMsg) ∨
       (jsIsNullish req.image_base64 = false ∧
        (([req.soil_moisture, req.temperature, req.humidity].any jsIsNullish = true ∧
            storeReading cfg t1 t2 req =
              badResult .missingSensorValue missingSensorMsg) ∨
         ([req.soil_moisture, req.temperature, req.humidity].any jsIsNullish = false ∧
          (([jsToNumberOpt req.soil_moisture, jsToNumberOpt req.temperature,
              jsToNumberOpt req.humidity].any JSNum.isNaN = true ∧
              storeReading cfg t1 t2 req =
                badResult .nonNumericSensorValue nonNumericMsg) ∨
           ([jsToNumberOpt req.soil_moisture, jsToNumberOpt req.temperature,
              jsToNumberOpt req.humidity].any JSNum.isNaN = false ∧
              storeReading cfg t1 t2 req = successResult cfg t1 t2 req cn))))))) := by
  cases h : sanitizeCollectionName req.field_id with
  | none =>
    left
    exact ⟨rfl, by simp [storeReading, h]⟩
  | some cn =>
    right
    have hne : cn ≠ "" := sanitize_some_ne_empty h
    refine ⟨cn, rfl, hne, ?_⟩
    cases hi : jsIsNullish req.image_base64 with
    | true =>
      left
      exact ⟨rfl, by simp [storeReading, h, hne, hi]⟩
    | false =>
      right
      refine ⟨rfl, ?_⟩
      cases hs : [req.soil_moisture, req.temperature, req.humidity].any jsIsNullish with
      | true =>
        left
        exact ⟨rfl, by simp [storeReading, h, hne, hi, hs]⟩
      | false =>
        right
        refine ⟨rfl, ?_⟩
        cases hn : [jsToNumberOpt req.soil_moisture, jsToNumberOpt req.temperature,
            jsToNumberOpt req.humidity].any JSNum.isNaN with
        | true =>
          left
          exact ⟨rfl, by simp [storeReading, h, hne, hi, hs, hn]⟩
        | false =>
          right
          exact ⟨rfl, by simp [storeReading, h, hne, hi, hs, hn]⟩

/-! ## C2: field_id validation -/

/-- C2: the handler rejects with kind InvalidFieldId precisely when field_id
is not a string whose trimmed form matches the allow-list regex; equivalently,
validation step 1 passes exactly for such strings. -/
theorem C2_field_id_validation (cfg : Config) (t1 t2 : ℕ) (req : Request) :
    (storeReading cfg t1 t2 req).errKind = some .invalidFieldId ↔
      ¬ ∃ s, req.field_id = some (.vStr s) ∧ fieldIdTest (jsTrim s) = true := by
  rcases storeReading_shape cfg t1 t2 req with ⟨hn, heq⟩ | ⟨cn, hcn, hne, hrest⟩
  · rw [heq]
    constructor
    · intro _
      exact sanitize_eq_none_iff.mp hn
    · intro _
      rfl
  · have hex : ∃ s, req.field_id = some (.vStr s) ∧ fieldIdTest (jsTrim s) = true := by
      obtain ⟨s, hs, htrim, htest⟩ := sanitize_eq_some_iff.mp hcn
      refine ⟨s, hs, ?_⟩
      rw [htrim]
      exact htest
    have hkind : (storeReading cfg t1 t2 req).errKind ≠ some .invalidFieldId := by
      rcases hrest with ⟨_, heq⟩ | ⟨_, ⟨_, heq⟩ | ⟨_, ⟨_, heq⟩ | ⟨_, heq⟩⟩⟩ <;>
        rw [heq] <;> simp [badResult, StoreResult.errKind, successResult]
    constructor
    · intro h
      exact absurd h hkind
    · intro h
      exact absurd hex h

/-! ## C4: validation failures have no side effects -/

/-- C4: whenever the handler answers 400 (any validation failure), no file is
written and no document is inserted. -/
theorem C4_validation_failure_no_side_effects (cfg : Config) (t1 t2 : ℕ)
    (req : Request) (k : ErrKind) (m : String)
    (h : (storeReading cfg t1 t2 req).response = .badRequest k m) :
    (storeReading cfg t1 t2 req).fileWritten = none ∧
      (storeReading cfg t1 t2 req).insertedInto = none := by
  rcases storeReading_shape cfg t1 t2 req with ⟨_, heq⟩ | ⟨cn, _, _, hrest⟩
  · rw [heq]
    exact ⟨rfl, rfl⟩
  · rcases hrest with ⟨_, heq⟩ | ⟨_, ⟨_, heq⟩ | ⟨_, ⟨_, heq⟩ | ⟨_, heq⟩⟩⟩
    · rw [heq]
      exact ⟨rfl, rfl⟩
    · rw [heq]
      exact ⟨rfl, rfl⟩
    · rw [heq]
      exact ⟨rfl, rfl⟩
    · rw [heq] at h
      exact absurd h (by simp [successResult])

theorem C4_validation_failure_no_side_effects_witness :
    (storeReading cfg0 0 0 reqBadField).response =
        .badRequest .invalidFieldId invalidFieldIdMsg ∧
      ((storeReading cfg0 0 0 reqBadField).fileWritten = none ∧
        (storeReading cfg0 0 0 reqBadField).insertedInto = none) :=
  ⟨by decide,
    C4_validation_failure_no_side_effects cfg0 0 0 reqBadField
      .invalidFieldId invalidFieldIdMsg (by decide)⟩

/-! ## C5: validation order, first failure wins -/

/-- C5: the error kind is determined by the first failing check, in the fixed
order field_id, image presence, sensor presence, numeric coercion; in
particular a request with both an invalid field_id and a missing image fails
with InvalidFieldId. -/
theorem C5_validation_order (cfg : Config) (t1 t2 : ℕ) (req : Request) :
    ((storeReading cfg t1 t2 req).errKind = some .invalidFieldId ↔
        fieldIdAccepted req = false) ∧
    ((storeReading cfg t1 t2 req).errKind = some .missingImage ↔
        fieldIdAccepted req = true ∧ jsIsNullish req.image_base64 = true) ∧
    ((storeReading cfg t1 t2 req).errKind = some .missingSensorValue ↔
        fieldIdAccepted req = true ∧ jsIsNullish req.image_base64 = false ∧
          [req.soil_moisture, req.temperature, req.humidity].any jsIsNullish = true) ∧
    ((storeReading cfg t1 t2 req).errKind = some .nonNumericSensorValue ↔
        fieldIdAccepted req = true ∧ jsIsNullish req.image_base64 = false ∧
          [req.soil_moisture, req.temperature, req.humidity].any jsIsNullish = false ∧
          [jsToNumberOpt req.soil_moisture, jsToNumberOpt req.temperature,
            jsToNumberOpt req.humidity].any JSNum.isNaN = true) := by
  rcases storeReading_shape cfg t1 t2 req with ⟨hn, heq⟩ | ⟨cn, hcn, hne, hrest⟩
  · have hacc := fieldIdAccepted_of_none hn
    rw [heq]
    simp [badResult, StoreResult.errKind, hacc]
  · have hacc := fieldIdAccepted_of_some hcn
    rcases hrest with ⟨hi, heq⟩ | ⟨hi, ⟨hs, heq⟩ | ⟨hs, ⟨hnn, heq⟩ | ⟨hnn, heq⟩⟩⟩
    · rw [heq]
      simp [badResult, StoreResult.errKind, hacc, hi]
    · rw [heq]
      simp [badResult, StoreResult.errKind, hacc, hi, hs]
    · rw [heq]
      simp [badResult, StoreResult.errKind, hacc, hi, hs, hnn]
    · rw [heq]
      simp [successResult, StoreResult.errKind, hacc, hi, hs, hnn]

/-! ## C1: non-finite sensor values -/

/-- C1 counterexample: `soil_moisture = "Infinity"` coerces to positive
Infinity — non-finite but not NaN — yet the handler returns HTTP 200 and
performs the insert, because line 89 of server.js checks only `Number.isNaN`,
not finiteness.  (A raw JSON number can also reach Infinity, e.g. the valid
JSON literal `1e999`.)  This refutes the claim that every non-finite coercion
is rejected with NonNumericSensorValue. -/
theorem C1_counterexample :
    JSNum.isFinite (jsToNumberOpt reqInf.soil_moisture) = false ∧
    JSNum.isNaN (jsToNumberOpt reqInf.soil_moisture) = false ∧
    (storeReading cfg0 7 7 reqInf).response.statusCode = 200 ∧
    (storeReading cfg0 7 7 reqInf).insertedInto.isSome = true := by
  decide

/-- C1 (amended): for requests passing the first three checks, the handler
fails with NonNumericSensorValue (performing no insert) precisely when some
sensor value coerces to NaN; values coercing to positive or negative Infinity
pass the check. -/
theorem C1_nan_only_numeric_check (cfg : Config) (t1 t2 : ℕ) (req : Request)
    (h1 : fieldIdAccepted req = true)
    (h2 : jsIsNullish req.image_base64 = false)
    (h3 : [req.soil_moisture, req.temperature, req.humidity].any jsIsNullish = false) :
    ((storeReading cfg t1 t2 req).response =
        .badRequest .nonNumericSensorValue nonNumericMsg ∧
      (storeReading cfg t1 t2 req).insertedInto = none) ↔
      [jsToNumberOpt req.soil_moisture, jsToNumberOpt req.temperature,
        jsToNumberOpt req.humidity].any JSNum.isNaN = true := by
  rcases storeReading_shape cfg t1 t2 req with ⟨hn, _⟩ | ⟨cn, hcn, hne, hrest⟩
  · rw [fieldIdAccepted_of_none hn] at h1
    exact Bool.noConfusion h1
  · rcases hrest with ⟨hi, _⟩ | ⟨_, hrest⟩
    · rw [h2] at hi
      exact Bool.noConfusion hi
    · rcases hrest with ⟨hs, _⟩ | ⟨_, hrest⟩
      · rw [h3] at hs
        exact Bool.noConfusion hs
      · rcases hrest with ⟨hnn, heq⟩ | ⟨hnn, heq⟩
        · rw [heq]
          simp [badResult, hnn]
        · rw [heq]
          simp [successResult, hnn]

theorem C1_nan_only_numeric_check_witness :
    fieldIdAccepted reqNaN = true ∧
    jsIsNullish reqNaN.image_base64 = false ∧
    [reqNaN.soil_moisture, reqNaN.temperature, reqNaN.humidity].any jsIsNullish = false ∧
    (((storeReading cfg0 1 1 reqNaN).response =
        .badRequest .nonNumericSensorValue nonNumericMsg ∧
      (storeReading cfg0 1 1 reqNaN).insertedInto = none) ↔
      [jsToNumberOpt reqNaN.soil_moisture, jsToNumberOpt reqNaN.temperature,
        jsToNumberOpt reqNaN.humidity].any JSNum.isNaN = true) :=
  ⟨by decide, by decide, by decide,
    C1_nan_only_numeric_check cfg0 1 1 reqNaN (by decide) (by decide) (by decide)⟩

/-! ## C3: decode failure is non-fatal, but malformed strings still decode -/

/-- C3 counterexample: for the malformed base64 string "!!!" (it contains no
base64 alphabet character at all), Node's lenient decoder still produces a
buffer — the empty one — and a Buffer object is always truthy, so the handler
writes an (empty) file and returns a non-null saved_file.  This refutes the
claim that a malformed image_base64 string leads to `saved_file: null` with no
file written. -/
theorem C3_counterexample :
    nodeBase64Decode "!!!" = [] ∧
    "!!!".toList.all (fun c => (b64Val c).isNone) = true ∧
    (storeReading cfg0 7 7 reqBad64).fileWritten =
      some ("/srv/app/uploads/Field_01_7.jpg", []) ∧
    (storeReading cfg0 7 7 reqBad64).response =
      .ok "Field_01" (some "/srv/app/uploads/Field_01_7.jpg") := by
  decide

/-- C3 (amended): decode failure — which occurs precisely when the decoder
yields no buffer, i.e. when image_base64 is not a string, since
`Buffer.from(string, "base64")` never throws — is non-fatal: the handler still
answers 200, writes no file, and inserts the document with saved_file null,
the coerced numeric fields intact, and the raw image value verbatim. -/
theorem C3_decode_failure_nonfatal (cfg : Config) (t1 t2 : ℕ) (req : Request)
    (img : JsValue)
    (h0 : req.image_base64 = some img)
    (h1 : fieldIdAccepted req = true)
    (h2 : jsIsNullish req.image_base64 = false)
    (h3 : [req.soil_moisture, req.temperature, req.humidity].any jsIsNullish = false)
    (h4 : [jsToNumberOpt req.soil_moisture, jsToNumberOpt req.temperature,
            jsToNumberOpt req.humidity].any JSNum.isNaN = false)
    (h5 : decodeBase64Image img = none) :
    ∃ cn, sanitizeCollectionName req.field_id = some cn ∧
      (storeReading cfg t1 t2 req).response = .ok cn none ∧
      (storeReading cfg t1 t2 req).fileWritten = none ∧
      (storeReading cfg t1 t2 req).insertedInto = some (cfg.databaseName, cn,
        { field_id := cn
          soil_moisture := jsToNumberOpt req.soil_moisture
          temperature := jsToNumberOpt req.temperature
          humidity := jsToNumberOpt req.humidity
          image_base64 := img
          saved_file := none
          created_at := t2 }) := by
  rcases storeReading_shape cfg t1 t2 req with ⟨hn, _⟩ | ⟨cn, hcn, hne, hrest⟩
  · rw [fieldIdAccepted_of_none hn] at h1
    exact Bool.noConfusion h1
  · rcases hrest with ⟨hi, _⟩ | ⟨_, hrest⟩
    · rw [h2] at hi
      exact Bool.noConfusion hi
    · rcases hrest with ⟨hs, _⟩ | ⟨_, hrest⟩
      · rw [h3] at hs
        exact Bool.noConfusion hs
      · rcases hrest with ⟨hnn, _⟩ | ⟨_, heq⟩
        · rw [h4] at hnn
          exact Bool.noConfusion hnn
        · have hgetd : req.image_base64.getD .vNull = img := by
            rw [h0]
            rfl
          have hsf : savedFileOf cfg t1 req cn = none := by
            simp [savedFileOf, hgetd, h5]
          rw [heq]
          refine ⟨cn, hcn, ?_, ?_, ?_⟩
          · simp [successResult, hsf]
          · simp [successResult, hgetd, h5]
          · simp [successResult, docOf, hgetd, hsf]

theorem C3_decode_failure_nonfatal_witness :
    decodeBase64Image (JsValue.vNum (.finite 5)) = none ∧
    ∃ cn, sanitizeCollectionName reqNumImage.field_id = some cn ∧
      (storeReading cfg0 3 4 reqNumImage).response = .ok cn none ∧
      (storeReading cfg0 3 4 reqNumImage).fileWritten = none ∧
      (storeReading cfg0 3 4 reqNumImage).insertedInto = some (cfg0.databaseName, cn,
        { field_id := cn
          soil_moisture := jsToNumberOpt reqNumImage.soil_moisture
          temperature := jsToNumberOpt reqNumImage.temperature
          humidity := jsToNumberOpt reqNumImage.humidity
          image_base64 := .vNum (.finite 5)
          saved_file := none
          created_at := 4 }) :=
  ⟨rfl, C3_decode_failure_nonfatal cfg0 3 4 reqNumImage (.vNum (.finite 5)) rfl
    (by decide) (by decide) (by decide) (by decide) rfl⟩

/-! ## C6: round-trip of stored fields -/

lemma exists_of_not_nullish {v : Option JsValue} (h : jsIsNullish v = false) :
    ∃ w, v = some w := by
  cases v with
  | none => exact Bool.noConfusion h
  | some w => exact ⟨w, rfl⟩

/-- C6: every inserted document carries the coerced numeric sensor values, the
trimmed field_id, and the raw image payload verbatim. -/
theorem C6_roundtrip (cfg : Config) (t1 t2 : ℕ) (req : Request)
    (db cn : String) (doc : ReadingDoc)
    (h : (storeReading cfg t1 t2 req).insertedInto = some (db, cn, doc)) :
    ∃ s img, req.field_id = some (.vStr s) ∧ cn = jsTrim s ∧
      doc.field_id = jsTrim s ∧
      doc.soil_moisture = jsToNumberOpt req.soil_moisture ∧
      doc.temperature = jsToNumberOpt req.temperature ∧
      doc.humidity = jsToNumberOpt req.humidity ∧
      req.image_base64 = some img ∧
      doc.image_base64 = img := by
  rcases storeReading_shape cfg t1 t2 req with ⟨_, heq⟩ | ⟨cn', hcn, hne, hrest⟩
  · rw [heq] at h
    exact Option.noConfusion h
  · rcases hrest with ⟨_, heq⟩ | ⟨hi, hrest⟩
    · rw [heq] at h
      exact Option.noConfusion h
    · rcases hrest with ⟨_, heq⟩ | ⟨_, hrest⟩
      · rw [heq] at h
        exact Option.noConfusion h
      · rcases hrest with ⟨_, heq⟩ | ⟨_, heq⟩
        · rw [heq] at h
          exact Option.noConfusion h
        · rw [heq] at h
          simp only [successResult, Option.some.injEq, Prod.mk.injEq] at h
          obtain ⟨hdb, hcneq, hdoc⟩ := h
          subst hcneq
          subst hdoc
          obtain ⟨s, hs, htrim, _⟩ := sanitize_eq_some_iff.mp hcn
          obtain ⟨img, himg⟩ := exists_of_not_nullish hi
          refine ⟨s, img, hs, htrim.symm, htrim.symm, rfl, rfl, rfl, himg, ?_⟩
          simp [docOf, himg]

theorem C6_roundtrip_witness :
    (storeReading cfg0 7 8 reqGood).insertedInto =
      some ("AgriVision_IoT", "Field_01", docOf cfg0 7 8 reqGood "Field_01") ∧
    ∃ s img, reqGood.field_id = some (.vStr s) ∧ ("Field_01" : String) = jsTrim s ∧
      (docOf cfg0 7 8 reqGood "Field_01").field_id = jsTrim s ∧
      (docOf cfg0 7 8 reqGood "Field_01").soil_moisture =
        jsToNumberOpt reqGood.soil_moisture ∧
      (docOf cfg0 7 8 reqGood "Field_01").temperature =
        jsToNumberOpt reqGood.temperature ∧
      (docOf cfg0 7 8 reqGood "Field_01").humidity =
        jsToNumberOpt reqGood.humidity ∧
      reqGood.image_base64 = some img ∧
      (docOf cfg0 7 8 reqGood "Field_01").image_base64 = img :=
  ⟨rfl, C6_roundtrip cfg0 7 8 reqGood "AgriVision_IoT" "Field_01"
    (docOf cfg0 7 8 reqGood "Field_01") rfl⟩

/-! ## C7: data-URI prefix stripping -/

lemma takeWhile_append_stop {p : Char → Bool} (c : Char) (r : List Char)
    (hc : p c = false) :
    ∀ l : List Char, l.all p = true → (l ++ c :: r).takeWhile p = l := by
  intro l
  induction l with
  | nil =>
    intro _
    simp [List.takeWhile_cons, hc]
  | cons a t ih =>
    intro hl
    rw [List.all_cons, Bool.and_eq_true] at hl
    rw [List.cons_append, List.takeWhile_cons, if_pos hl.1, ih hl.2]

lemma dropWhile_append_stop {p : Char → Bool} (c : Char) (r : List Char)
    (hc : p c = false) :
    ∀ l : List Char, l.all p = true → (l ++ c :: r).dropWhile p = c :: r := by
  intro l
  induction l with
  | nil =>
    intro _
    simp [List.dropWhile_cons, hc]
  | cons a t ih =>
    intro hl
    rw [List.all_cons, Bool.and_eq_true] at hl
    rw [List.cons_append, List.dropWhile_cons, if_pos hl.1, ih hl.2]

lemma toList_ne_nil {s : String} (h : s ≠ "") : s.toList ≠ [] := by
  intro hh
  apply h
  cases s with
  | mk l => exact congrArg String.mk hh

lemma mk_toList (s : String) : String.mk s.toList = s := rfl

/-- The regex of decodeBase64Image strips a well-formed data-URI prefix: when
the mime part is a nonempty run of class characters and the payload is
nonempty without line terminators, group 2 — the payload — is returned. -/
lemma stripDataUri_strips (mime payload : String)
    (h1 : mime ≠ "") (h2 : mime.toList.all isMimeChar = true)
    (h3 : payload ≠ "")
    (h4 : payload.toList.all (fun c => !isLineTerm c) = true) :
    stripDataUri ("data:" ++ mime ++ ";base64," ++ payload) = payload := by
  have hdata : ∀ s t : String, (s ++ t).toList = s.toList ++ t.toList := by
    intro s t
    exact String.data_append s t
  have hlist : ("data:" ++ mime ++ ";base64," ++ payload).toList =
      'd' :: 'a' :: 't' :: 'a' :: ':' ::
        (mime.toList ++ ';' :: ('b' :: 'a' :: 's' :: 'e' :: '6' :: '4' :: ',' ::
          payload.toList)) := by
    rw [hdata, hdata, hdata]
    simp [List.append_assoc]
  have hspan : (mime.toList ++ ';' :: ('b' :: 'a' :: 's' :: 'e' :: '6' :: '4' :: ',' ::
        payload.toList)).span isMimeChar =
      (mime.toList, ';' :: ('b' :: 'a' :: 's' :: 'e' :: '6' :: '4' :: ',' ::
        payload.toList)) := by
    rw [List.span_eq_take_drop,
      takeWhile_append_stop _ _ (by decide) mime.toList h2,
      dropWhile_append_stop _ _ (by decide) mime.toList h2]
  have hme : mime.toList.isEmpty = false := by
    cases hm : mime.toList with
    | nil => exact absurd hm (toList_ne_nil h1)
    | cons a t => rfl
  have hpe : payload.toList.isEmpty = false := by
    cases hp : payload.toList with
    | nil => exact absurd hp (toList_ne_nil h3)
    | cons a t => rfl
  simp only [stripDataUri, hlist, hspan, hme, Bool.false_eq_true, if_false,
    hpe, Bool.not_false, Bool.true_and, h4, if_true]
  exact mk_toList payload

/-- C7 counterexample: the mime character class `[A-Za-z-+/]` of the regex has
no digits, so the well-formed data-URI with mime type `video/mp4` is NOT
stripped, and the decoded bytes differ from the decode of the payload alone.
This refutes the claim for arbitrary mime types. -/
theorem C7_counterexample :
    ("data:video/mp4;base64,QQ==" : String) =
      "data:" ++ "video/mp4" ++ ";base64," ++ "QQ==" ∧
    stripDataUri "data:video/mp4;base64,QQ==" = "data:video/mp4;base64,QQ==" ∧
    decodeBase64Image (.vStr "data:video/mp4;base64,QQ==") ≠
      decodeBase64Image (.vStr "QQ==") := by
  refine ⟨rfl, ?_, ?_⟩
  · decide
  · decide

/-- C7 (amended): for every data-URI whose mime type is a nonempty string of
ASCII letters, `+`, `-` or `/` (the class of the regex — note it contains no
digits) and whose base64 payload is nonempty with no line terminator, the
decoder strips the URI prefix and the decoded buffer equals the decode of the
payload alone; with mime type `image/jpeg` and payload `QQ==` this is the
spec's example. -/
theorem C7_data_uri_strip (mime payload : String)
    (h1 : mime ≠ "") (h2 : mime.toList.all isMimeChar = true)
    (h3 : payload ≠ "")
    (h4 : payload.toList.all (fun c => !isLineTerm c) = true) :
    stripDataUri ("data:" ++ mime ++ ";base64," ++ payload) = payload ∧
    decodeBase64Image (.vStr ("data:" ++ mime ++ ";base64," ++ payload)) =
      some (nodeBase64Decode payload) := by
  have h := stripDataUri_strips mime payload h1 h2 h3 h4
  refine ⟨h, ?_⟩
  simp [decodeBase64Image, h]

theorem C7_data_uri_strip_witness :
    ("image/jpeg" : String) ≠ "" ∧
    ("image/jpeg" : String).toList.all isMimeChar = true ∧
    ("QQ==" : String) ≠ "" ∧
    ("QQ==" : String).toList.all (fun c => !isLineTerm c) = true ∧
    (stripDataUri ("data:" ++ "image/jpeg" ++ ";base64," ++ "QQ==") = "QQ==" ∧
      decodeBase64Image (.vStr ("data:" ++ "image/jpeg" ++ ";base64," ++ "QQ==")) =
        some (nodeBase64Decode "QQ==")) :=
  ⟨by decide, by decide, by decide, by decide,
    C7_data_uri_strip "image/jpeg" "QQ==" (by decide) (by decide) (by decide)
      (by decide)⟩

/-! ## C9: database_name is ignored -/

/-- C9: two requests differing only in database_name produce identical
results, and whenever a document is inserted the target database is the
process-configured one. -/
theorem C9_database_name_ignored (cfg : Config) (t1 t2 : ℕ) (req : Request)
    (v w : Option JsValue) :
    storeReading cfg t1 t2 { req with database_name := v } =
      storeReading cfg t1 t2 { req with database_name := w } ∧
    (∀ db cn doc, (storeReading cfg t1 t2 req).insertedInto = some (db, cn, doc) →
      db = cfg.databaseName) := by
  constructor
  · rfl
  · intro db cn doc h
    rcases storeReading_shape cfg t1 t2 req with ⟨_, heq⟩ | ⟨cn', _, _, hrest⟩
    · rw [heq] at h
      exact Option.noConfusion h
    · rcases hrest with ⟨_, heq⟩ | ⟨_, ⟨_, heq⟩ | ⟨_, ⟨_, heq⟩ | ⟨_, heq⟩⟩⟩
      · rw [heq] at h
        exact Option.noConfusion h
      · rw [heq] at h
        exact Option.noConfusion h
      · rw [heq] at h
        exact Option.noConfusion h
      · rw [heq] at h
        simp only [successResult, Option.some.injEq, Prod.mk.injEq] at h
        exact h.1.symm

theorem C9_database_name_ignored_witness :
    (storeReading cfg0 7 7 { reqGood with database_name := some (.vStr "Evil") } =
      storeReading cfg0 7 7 { reqGood with database_name := some .vNull }) ∧
    (storeReading cfg0 7 7 reqGood).insertedInto =
      some ("AgriVision_IoT", "Field_01", docOf cfg0 7 7 reqGood "Field_01") ∧
    ("AgriVision_IoT" : String) = cfg0.databaseName :=
  ⟨(C9_database_name_ignored cfg0 7 7 reqGood (some (.vStr "Evil")) (some .vNull)).1,
    rfl,
    (C9_database_name_ignored cfg0 7 7 reqGood (some (.vStr "Evil")) (some .vNull)).2
      "AgriVision_IoT" "Field_01" (docOf cfg0 7 7 reqGood "Field_01") rfl⟩

/-! ## C8: the saved_file path -/

lemma toList_append' (s t : String) : (s ++ t).toList = s.toList ++ t.toList :=
  String.data_append s t

lemma dropLit_append (l cs : List Char) : dropLit l (l ++ cs) = some cs := by
  induction l with
  | nil => rfl
  | cons a t ih => simp [dropLit, ih]

lemma digitChar_isDigit (m : ℕ) : isDigitCh (digitChar m) = true := by
  match m with
  | 0 => decide
  | 1 => decide
  | 2 => decide
  | 3 => decide
  | 4 => decide
  | 5 => decide
  | 6 => decide
  | 7 => decide
  | 8 => decide
  | n + 9 => rfl

lemma natDecAux_digits : ∀ fuel n : ℕ, (natDecAux fuel n).all isDigitCh = true := by
  intro fuel
  induction fuel with
  | zero =>
    intro n
    rfl
  | succ f ih =>
    intro n
    simp only [natDecAux]
    split
    · simp [digitChar_isDigit]
    · rw [List.all_append]
      simp [ih, digitChar_isDigit]

lemma natDecAux_ne_nil (f n : ℕ) : natDecAux (f + 1) n ≠ [] := by
  simp only [natDecAux]
  split
  · simp
  · simp

lemma natDec_toList (n : ℕ) : (natDec n).toList = natDecAux (n + 1) n := rfl

lemma natDec_digits (n : ℕ) : (natDec n).toList.all isDigitCh = true :=
  natDecAux_digits _ _

lemma natDec_toList_ne_nil (n : ℕ) : (natDec n).toList ≠ [] := by
  rw [natDec_toList]
  exact natDecAux_ne_nil n n

lemma digitsDotJpg_digits : ∀ d : List Char, d.all isDigitCh = true →
    digitsDotJpg (d ++ ['.', 'j', 'p', 'g']) = true := by
  intro d
  induction d with
  | nil =>
    intro _
    rfl
  | cons c t ih =>
    intro h
    rw [List.all_cons, Bool.and_eq_true] at h
    rw [List.cons_append]
    simp only [digitsDotJpg]
    rw [if_pos h.1]
    exact ih h.2

lemma specPatChars_of_digits (d : List Char) (h1 : d ≠ [])
    (h2 : d.all isDigitCh = true) :
    specSavedFilePatChars ("uploads/Field_01_".toList ++ d ++ ['.', 'j', 'p', 'g']) =
      true := by
  obtain ⟨c, d', rfl⟩ := List.exists_cons_of_ne_nil h1
  rw [List.all_cons, Bool.and_eq_true] at h2
  unfold specSavedFilePatChars
  rw [List.append_assoc, dropLit_append, List.cons_append]
  simp [h2.1, digitsDotJpg_digits d' h2.2]

lemma specPattern_of_digits_suffix (n : ℕ) :
    specSavedFilePattern ("uploads/Field_01_" ++ natDec n ++ ".jpg") = true := by
  unfold specSavedFilePattern
  rw [toList_append', toList_append']
  have hjpg : (".jpg" : String).toList = ['.', 'j', 'p', 'g'] := rfl
  rw [hjpg]
  exact specPatChars_of_digits (natDec n).toList (natDec_toList_ne_nil n)
    (natDec_digits n)

/-- C8 counterexample: the handler stores and returns the path built with
`path.join(__dirname, "uploads", ...)` — an absolute path rooted at the
directory containing server.js, not a path relative to the working directory —
so the returned saved_file does not match the spec pattern
`uploads/Field_01_<digits>.jpg` (which the relative suffix does match). -/
theorem C8_counterexample :
    (storeReading cfg0 9 9 reqGood).response =
      .ok "Field_01" (some "/srv/app/uploads/Field_01_9.jpg") ∧
    specSavedFilePattern "/srv/app/uploads/Field_01_9.jpg" = false ∧
    specSavedFilePattern "uploads/Field_01_9.jpg" = true := by
  decide

/-- C8 (amended): the successful scenario request yields HTTP 200 whose
saved_file is the absolute path `<script-dir>/uploads/Field_01_<digits>.jpg`:
it is the spec's pattern `uploads/Field_01_<digits>.jpg` prefixed by the
directory containing the server script (not the process working directory). -/
theorem C8_saved_path (cfg : Config) (t1 t2 : ℕ) :
    ∃ p, (storeReading cfg t1 t2 reqGood).response = .ok "Field_01" (some p) ∧
      p = uploadPath cfg "Field_01" t1 ∧
      p = cfg.dirname ++ "/" ++ ("uploads/Field_01_" ++ natDec t1 ++ ".jpg") ∧
      specSavedFilePattern ("uploads/Field_01_" ++ natDec t1 ++ ".jpg") = true := by
  refine ⟨uploadPath cfg "Field_01" t1, rfl, rfl, ?_, specPattern_of_digits_suffix t1⟩
  have h3 : ∀ X : String,
      "/" ++ ("uploads/Field_01_" ++ X) = "/uploads/Field_01_" ++ X := by
    intro X
    rw [← String.append_assoc]
    exact rfl
  simp [uploadPath, String.append_assoc, h3]

theorem C8_saved_path_witness :
    ∃ p, (storeReading cfg0 9 9 reqGood).response = .ok "Field_01" (some p) ∧
      p = uploadPath cfg0 "Field_01" 9 ∧
      p = cfg0.dirname ++ "/" ++ ("uploads/Field_01_" ++ natDec 9 ++ ".jpg") ∧
      specSavedFilePattern ("uploads/Field_01_" ++ natDec 9 ++ ".jpg") = true :=
  C8_saved_path cfg0 9 9

/-! ## C10: allow-list invariants of the persisted identifiers -/

lemma fieldIdTest_props {s : String} (h : fieldIdTest s = true) :
    s ≠ "" ∧ s.length ≤ 100 ∧ s.toList.all isAllowedChar = true := by
  have h' := h
  unfold fieldIdTest at h'
  rw [Bool.and_eq_true, Bool.and_eq_true] at h'
  obtain ⟨⟨ha, hb⟩, hc⟩ := h'
  exact ⟨fieldIdTest_ne_empty h, of_decide_eq_true hb, hc⟩

/-- C10 counterexample: the generated image filename ends in the fixed
extension ".jpg", so both the basename `Field_01_5.jpg` and the full written
path contain a dot — and the path contains separators — none of which are in
the allow-list.  The allow-list invariant holds for the collection name and
for the caller-controlled portion only. -/
theorem C10_counterexample :
    (storeReading cfg0 5 5 reqGood).fileWritten =
      some ("/srv/app/uploads/Field_01_5.jpg", [65]) ∧
    "/srv/app/uploads/Field_01_5.jpg".toList.contains '.' = true ∧
    "Field_01_5.jpg".toList.contains '.' = true ∧
    isAllowedChar '.' = false ∧
    "/srv/app/uploads/Field_01_5.jpg".toList.contains '/' = true ∧
    isAllowedChar '/' = false := by
  decide

/-- C10 (amended): sanitizeCollectionName returns null or a nonempty string of
at most 100 allow-list characters; every persisted collection name is such a
string; and every written file path is the uploads directory plus a basename
made of the allow-list collection name, an underscore, a digit run, and the
fixed literal suffix ".jpg" — so apart from that fixed suffix and the uploads
prefix, the path contains only allow-list characters. -/
theorem C10_sanitizer_allowlist :
    (∀ v : Option JsValue,
        sanitizeCollectionName v = none ∨
        ∃ s, sanitizeCollectionName v = some s ∧ s ≠ "" ∧ s.length ≤ 100 ∧
          s.toList.all isAllowedChar = true) ∧
    (∀ (cfg : Config) (t1 t2 : ℕ) (req : Request) (db cn : String)
        (doc : ReadingDoc),
        (storeReading cfg t1 t2 req).insertedInto = some (db, cn, doc) →
        cn ≠ "" ∧ cn.length ≤ 100 ∧ cn.toList.all isAllowedChar = true) ∧
    (∀ (cfg : Config) (t1 t2 : ℕ) (req : Request) (p : String) (b : List ℕ),
        (storeReading cfg t1 t2 req).fileWritten = some (p, b) →
        ∃ cn, cn ≠ "" ∧ cn.length ≤ 100 ∧ cn.toList.all isAllowedChar = true ∧
          (natDec t1).toList.all isDigitCh = true ∧
          p = cfg.dirname ++ "/uploads/" ++ cn ++ "_" ++ natDec t1 ++ ".jpg") := by
  refine ⟨?_, ?_, ?_⟩
  · intro v
    cases h : sanitizeCollectionName v with
    | none => exact Or.inl rfl
    | some s =>
      right
      obtain ⟨s', _, _, htest⟩ := sanitize_eq_some_iff.mp h
      obtain ⟨hne, hlen, hall⟩ := fieldIdTest_props htest
      exact ⟨s, rfl, hne, hlen, hall⟩
  · intro cfg t1 t2 req db cn doc h
    rcases storeReading_shape cfg t1 t2 req with ⟨_, heq⟩ | ⟨cn', hcn, _, hrest⟩
    · rw [heq] at h
      exact Option.noConfusion h
    · rcases hrest with ⟨_, heq⟩ | ⟨_, ⟨_, heq⟩ | ⟨_, ⟨_, heq⟩ | ⟨_, heq⟩⟩⟩
      · rw [heq] at h
        exact Option.noConfusion h
      · rw [heq] at h
        exact Option.noConfusion h
      · rw [heq] at h
        exact Option.noConfusion h
      · rw [heq] at h
        simp only [successResult, Option.some.injEq, Prod.mk.injEq] at h
        obtain ⟨_, hcneq, _⟩ := h
        subst hcneq
        obtain ⟨s, _, _, htest⟩ := sanitize_eq_some_iff.mp hcn
        exact fieldIdTest_props htest
  · intro cfg t1 t2 req p b h
    rcases storeReading_shape cfg t1 t2 req with ⟨_, heq⟩ | ⟨cn', hcn, _, hrest⟩
    · rw [heq] at h
      exact Option.noConfusion h
    · rcases hrest with ⟨_, heq⟩ | ⟨_, ⟨_, heq⟩ | ⟨_, ⟨_, heq⟩ | ⟨_, heq⟩⟩⟩
      · rw [heq] at h
        exact Option.noConfusion h
      · rw [heq] at h
        exact Option.noConfusion h
      · rw [heq] at h
        exact Option.noConfusion h
      · rw [heq] at h
        simp only [successResult] at h
        obtain ⟨s, _, _, htest⟩ := sanitize_eq_some_iff.mp hcn
        obtain ⟨hne, hlen, hall⟩ := fieldIdTest_props htest
        cases hdec : decodeBase64Image (req.image_base64.getD .vNull) with
        | none =>
          rw [hdec] at h
          exact Option.noConfusion h
        | some bytes =>
          rw [hdec] at h
          simp only [Option.some.injEq, Prod.mk.injEq] at h
          exact ⟨cn', hne, hlen, hall, natDec_digits t1, h.1.symm⟩

theorem C10_sanitizer_allowlist_witness :
    (sanitizeCollectionName (some (.vStr "Field_01")) = none ∨
      ∃ s, sanitizeCollectionName (some (.vStr "Field_01")) = some s ∧ s ≠ "" ∧
        s.length ≤ 100 ∧ s.toList.all isAllowedChar = true) ∧
    ((storeReading cfg0 5 5 reqGood).insertedInto =
        some ("AgriVision_IoT", "Field_01", docOf cfg0 5 5 reqGood "Field_01") ∧
      (("Field_01" : String) ≠ "" ∧ ("Field_01" : String).length ≤ 100 ∧
        ("Field_01" : String).toList.all isAllowedChar = true)) ∧
    ((storeReading cfg0 5 5 reqGood).fileWritten =
        some ("/srv/app/uploads/Field_01_5.jpg", [65]) ∧
      ∃ cn, cn ≠ "" ∧ cn.length ≤ 100 ∧ cn.toList.all isAllowedChar = true ∧
        (natDec 5).toList.all isDigitCh = true ∧
        ("/srv/app/uploads/Field_01_5.jpg" : String) =
          cfg0.dirname ++ "/uploads/" ++ cn ++ "_" ++ natDec 5 ++ ".jpg") :=
  ⟨C10_sanitizer_allowlist.1 (some (.vStr "Field_01")),
    ⟨rfl, C10_sanitizer_allowlist.2.1 cfg0 5 5 reqGood "AgriVision_IoT" "Field_01"
      (docOf cfg0 5 5 reqGood "Field_01") rfl⟩,
    ⟨by decide, C10_sanitizer_allowlist.2.2 cfg0 5 5 reqGood
      "/srv/app/uploads/Field_01_5.jpg" [65] (by decide)⟩⟩

end AgriVision
